import Mathlib

/-!
Verification of the course-generation pipeline of the CurriculumKnowledgePlanning
backend, as a shallow embedding of the Python source.

Embedded source files:
- `backend/app/services/llm_service.py` (`LLMService._retry_llm_call`,
  `generate_chapter_content`, `generate_course_introduction`,
  `generate_simple_chapter_content`)
- `backend/app/api/v1/endpoints/courses.py` (`generate_course`,
  `generate_course_content_task_impl`)
- `backend/app/api/v1/websocket.py` (event payload shapes)
- `backend/app/models/course.py` (mapped columns of the four ORM models)

Modelling conventions:
- The external LLM is an oracle `Nat → Option String`: `none` means the call for
  that attempt index raised a transport error, `some s` means it returned content
  `s` (empty or short content is data, exactly as in the Python code).
- Pydantic/JSON parsing of a candidate string against a schema is an oracle
  `String → Option α` (`none` = the parse raised), and the LangChain
  `OutputFixingParser` round-trip is a second such oracle.
- SQLAlchemy session activity is recorded as an explicit trace of operations
  (`add`/`flush`/`commit`); ORM rows are plain records holding exactly the
  mapped columns of `models/course.py`.
- Python float arithmetic on progress percentages (`int(75 + (idx/total)*20)`)
  is modelled by exact integer arithmetic `75 + (20*idx)/total` (floor division),
  which agrees with the float computation on all inputs whose float rounding is
  exact; `int()` truncation of a nonnegative value is floor.
-/

namespace CKP

/-! ## Stage results

Every generation stage in `llm_service.py` returns a dict
`\x7b'success': True, 'data': ...\x7d` or `\x7b'success': False, 'error': ...\x7d`. -/

inductive StageResult (α : Type) where
  | success (data : α)
  | failure (error : String)
  deriving Repr, DecidableEq

def StageResult.isFailure {α : Type} : StageResult α → Bool
  | .success _ => false
  | .failure _ => true

/-! ## Python string primitives

Executable list-based models of the Python string operations the source
uses; `String.trim`/`String.take` are avoided because the claims are settled
by kernel evaluation on concrete strings. -/

/-- Python `\s`: space, tab, newline, carriage return, form feed, vertical
tab. -/
def pyIsSpace (c : Char) : Bool :=
  c = ' ' || c = '\t' || c = '\n' || c = '\r' || c = '\x0c' || c = '\x0b'

/-- Python `str.strip()`: drop leading and trailing whitespace. -/
def pyStrip (s : String) : String :=
  String.mk (((s.data.dropWhile pyIsSpace).reverse.dropWhile pyIsSpace).reverse)

/-- Python slicing `s[:n]`. -/
def pyTake (s : String) (n : Nat) : String :=
  String.mk (s.data.take n)

/-! ## Retry layer: `LLMService._retry_llm_call`

```python
for attempt in range(max_retries + 1):
    try:
        result = self.llm(prompt_messages)
        if not result: raise LLMEmptyResponseError(...)
        if not result.content: raise LLMEmptyResponseError(...)
        response_content = result.content.strip()
        if len(response_content) < 10: raise LLMEmptyResponseError(...)
        return result
    except (LLMEmptyResponseError, Exception) as e:
        if attempt < max_retries:
            delay = initial_delay * (2 ** attempt)
            time.sleep(delay)
        else:
            raise LLMMaxRetriesExceededError(...)
```

The oracle gives the outcome of each attempt: `none` = the call raised,
`some s` = it returned content `s`.  A `None` result, empty content, and
content whose strip is shorter than 10 characters all raise
`LLMEmptyResponseError`, which the `except` clause treats exactly like a
transport failure.  `initial_delay = 1.0`, `max_retries = 3`. -/

inductive RetryOutcome where
  /-- the raised `LLMMaxRetriesExceededError` -/
  | maxRetriesExceeded
  /-- the returned result, with its content string -/
  | ok (content : String)
  deriving Repr, DecidableEq

structure RetryResult where
  attemptsMade : Nat
  /-- seconds slept between consecutive attempts, in order -/
  delays : List Nat
  outcome : RetryOutcome
  deriving Repr, DecidableEq

/-- Does this attempt outcome pass the response-quality checks of
`_retry_llm_call` (non-raising call, non-empty content, stripped length at
least 10)? -/
def attemptOk (o : Option String) : Bool :=
  match o with
  | none => false
  | some s => 10 ≤ (pyStrip s).length

def retryGo (oracle : Nat → Option String) (maxRetries : Nat) :
    Nat → Nat → RetryResult
  | attempt, 0 => ⟨attempt, [], .maxRetriesExceeded⟩
  | attempt, fuel + 1 =>
    match oracle attempt with
    | some s =>
      if 10 ≤ (pyStrip s).length then
        ⟨attempt + 1, [], .ok s⟩
      else if attempt < maxRetries then
        let r := retryGo oracle maxRetries (attempt + 1) fuel
        ⟨r.attemptsMade, 2 ^ attempt :: r.delays, r.outcome⟩
      else
        ⟨attempt + 1, [], .maxRetriesExceeded⟩
    | none =>
      if attempt < maxRetries then
        let r := retryGo oracle maxRetries (attempt + 1) fuel
        ⟨r.attemptsMade, 2 ^ attempt :: r.delays, r.outcome⟩
      else
        ⟨attempt + 1, [], .maxRetriesExceeded⟩

/-- `LLMService._retry_llm_call` with its default `max_retries = 3`,
`initial_delay = 1.0`: the loop body runs for `attempt = 0, 1, 2, 3`. -/
def retry_llm_call (oracle : Nat → Option String) : RetryResult :=
  retryGo oracle 3 0 4

/-! ## JSON substring extraction

Both chapter-content generators locate a JSON candidate with
`re.search(r'\x7b.*\x7d', response_content, re.DOTALL)`: the greedy match runs
from the first opening brace of the text to the last closing brace of the text
(and exists iff the first opening brace precedes the last closing brace). -/

def extractJson (s : String) : Option String :=
  let cs := s.data
  match cs.findIdx? (fun c => c = '\x7b') with
  | none => none
  | some i =>
    match cs.reverse.findIdx? (fun c => c = '\x7d') with
    | none => none
    | some k =>
      let j := cs.length - 1 - k
      if i < j then some (String.mk ((cs.drop i).take (j - i + 1))) else none

/-! ## Deterministic textual repair

`generate_course_introduction` / `generate_learning_objectives` repair a
missing comma between a closing bracket and a following key:
`re.sub(r'(\])(\s*"[a-zA-Z_]+"\s*:)', r'\1,\2', content)`. -/

/-- `[a-zA-Z_]` -/
def isIdentChar (c : Char) : Bool :=
  ('a' ≤ c && c ≤ 'z') || ('A' ≤ c && c ≤ 'Z') || c = '_'

/-- Try to match `\s*"[a-zA-Z_]+"\s*:` at the front of `cs`; on success return
the matched characters and the remainder. -/
def matchKeyColon (cs : List Char) : Option (List Char × List Char) :=
  let ws1 := cs.takeWhile pyIsSpace
  match cs.dropWhile pyIsSpace with
  | '\"' :: r2 =>
    let ident := r2.takeWhile isIdentChar
    if ident.isEmpty then none else
    match r2.dropWhile isIdentChar with
    | '\"' :: r4 =>
      let ws2 := r4.takeWhile pyIsSpace
      match r4.dropWhile pyIsSpace with
      | ':' :: r6 => some (ws1 ++ '\"' :: ident ++ '\"' :: ws2 ++ [':'], r6)
      | _ => none
    | _ => none
  | _ => none

/-- Left-to-right non-overlapping substitution pass of the comma-repair regex
(`fuel` bounds recursion; one character is consumed per step, so `fuel =
length` never runs out). -/
def repairGo : Nat → List Char → List Char
  | 0, cs => cs
  | _ + 1, [] => []
  | fuel + 1, ']' :: rest =>
    match matchKeyColon rest with
    | some (m, r) => ']' :: ',' :: (m ++ repairGo fuel r)
    | none => ']' :: repairGo fuel rest
  | fuel + 1, c :: rest => c :: repairGo fuel rest

/-- The manual comma repair applied in `generate_course_introduction` and
`generate_learning_objectives`. -/
def regexRepair (s : String) : String :=
  String.mk (repairGo s.data.length s.data)

/-! ## The three parse pipelines

Parsing a candidate string against a pydantic schema is the oracle
`parse : String → Option α` (`none` = the parse raised); the
`OutputFixingParser` LLM round-trip is `fix`, returning `Except String α`
where the error carries `str(e)` of the exception it raised. -/

/-- Parse pipeline of `LLMService.generate_chapter_content` (after the retry
layer returned `raw`): (1) extract the first-to-last-brace substring of the
stripped text and parse it; (2) on any failure, run the `OutputFixingParser`
round-trip on the stripped text; (3) on failure again, return a failure record
whose error embeds only the first 500 characters of the stripped text. -/
def chapter_content_parse {α : Type} (parse : String → Option α)
    (fix : String → Except String α) (raw : String) : StageResult α :=
  let rc := pyStrip raw
  let direct : Option α :=
    match extractJson rc with
    | some js => parse js
    | none => none
  match direct with
  | some d => .success d
  | none =>
    match fix rc with
    | .ok d => .success d
    | .error _ => .failure ("Failed to parse LLM response: " ++ pyTake rc 500)

/-- Parse pipeline of `LLMService.generate_course_introduction` (and of
`generate_learning_objectives`, which is identical): (1) parse the raw text
directly; (2) apply the comma repair to the stripped text and re-parse;
(3) run the `OutputFixingParser` round-trip on the raw text — if that raises,
the exception reaches the outer handler, so the failure record's error is the
exception text, not a preview of the offending response. -/
def intro_parse {α : Type} (parse : String → Option α)
    (fix : String → Except String α) (raw : String) : StageResult α :=
  match parse raw with
  | some d => .success d
  | none =>
    match parse (regexRepair (pyStrip raw)) with
    | some d => .success d
    | none =>
      match fix raw with
      | .ok d => .success d
      | .error e => .failure e

/-- Parse pipeline of `LLMService.generate_simple_chapter_content` (the one the
orchestrator actually calls per chapter): extract the first-to-last-brace
substring of the stripped text and parse it; on any failure return a failure
record embedding the first 200 characters of the stripped text. No textual
repair and no `OutputFixingParser` round-trip at all. -/
def simple_chapter_parse {α : Type} (parse : String → Option α)
    (raw : String) : StageResult α :=
  let rc := pyStrip raw
  let direct : Option α :=
    match extractJson rc with
    | some js => parse js
    | none => none
  match direct with
  | some d => .success d
  | none => .failure ("Failed to parse response: " ++ pyTake rc 200)

/-- Steps (2)-(3) of the spec-modelled layer below. -/
def specRepairStep2 {α : Type} (parse : String → Option α)
    (fix : String → Except String α) (raw : String) : StageResult α :=
  match parse (regexRepair raw) with
  | some d => .success d
  | none =>
    match fix raw with
    | .ok d => .success d
    | .error _ => .failure ("ParseError: " ++ pyTake raw 500)

/-- Modelled from the spec (§4.3, claim C8): the single repair-and-parse layer
the spec describes, attempting in order (1) outermost object-literal substring
extraction and schema parse, (2) deterministic textual repairs and re-parse,
(3) a secondary fix-this-output service round-trip, and otherwise returning a
ParseError carrying a bounded-length preview of the offending text.  Written
for comparison with the pipelines above; it is not code of the repository. -/
def spec_repair_and_parse {α : Type} (parse : String → Option α)
    (fix : String → Except String α) (raw : String) : StageResult α :=
  match extractJson raw with
  | some js =>
    match parse js with
    | some d => .success d
    | none => specRepairStep2 parse fix raw
  | none => specRepairStep2 parse fix raw

/-! ## Pydantic output models of `llm_service.py`

`parsed_result.dict()` of each pydantic model is what the stage hands to the
orchestrator, so every declared field is present in the dict. -/

/-- `CourseIntroduction` -/
structure IntroData where
  title : String
  brief_description : String
  target_audience : String
  prerequisites : String
  learning_outcomes : List String
  course_highlights : List String
  difficulty_level : String
  estimated_duration : String
  deriving Repr, DecidableEq

/-- `LearningObjective` -/
structure LearningObjectiveItem where
  objective : String
  assessment_method : String
  bloom_level : String
  deriving Repr, DecidableEq

/-- `LearningObjectives` -/
structure ObjectivesData where
  overall_objectives : List String
  knowledge_objectives : List LearningObjectiveItem
  skill_objectives : List LearningObjectiveItem
  application_objectives : List LearningObjectiveItem
  deriving Repr, DecidableEq

/-- The per-chapter descriptor dict the orchestrator reads with `.get`.
A descriptor coming from a parsed `ChapterStructure` has every field present
(`some`); the fallback path pairs the fallback chapter with the empty dict
`\x7b\x7d`, i.e. every field `none`. -/
structure ChapterInfo where
  chapter_id : Option Int
  chapter_title : Option String
  chapter_description : Option String
  estimated_hours : Option ℚ
  difficulty_level : Option String
  learning_objectives : Option (List String)
  deriving Repr, DecidableEq

/-- `CourseStructure.dict()` as read by the orchestrator -/
structure StructureData where
  total_chapters : Option Int
  estimated_hours : Option ℚ
  chapters : List ChapterInfo
  deriving Repr, DecidableEq

/-- A knowledge-point dict (fields from `SimpleKnowledgePoint`). -/
structure KPInfo where
  title : Option String
  description : Option String
  deriving Repr, DecidableEq

/-- A section dict of `SimpleChapterContent.dict()` as read by the
orchestrator with `.get` (fields from `SimpleSection`; a parsed one has every
field present). -/
structure SectionInfo where
  title : Option String
  content : Option String
  knowledge_points : Option (List KPInfo)
  deriving Repr, DecidableEq

/-- `SimpleChapterContent.dict()` -/
structure SimpleChapterContentData where
  sections : List SectionInfo
  deriving Repr, DecidableEq

/-! ## Stage wrappers: retry + parse, exceptions converted to failure records -/

/-- `LLMService.generate_simple_chapter_content`: the whole body is wrapped in
`try/except Exception`, so an exhausted retry (`LLMMaxRetriesExceededError`)
becomes a failure record rather than escaping.  (The real error string is
`str(e)`, which embeds the attempt count and last error; the claims only
inspect that it is a failure record.) -/
def generate_simple_chapter_content
    (oracle : Nat → Option String)
    (parse : String → Option SimpleChapterContentData) :
    StageResult SimpleChapterContentData :=
  match (retry_llm_call oracle).outcome with
  | .maxRetriesExceeded => .failure "Failed after 4 attempts"
  | .ok content => simple_chapter_parse parse content

/-- `LLMService.generate_course_introduction`: retry, then the intro parse
pipeline; any exception (exhausted retry, or the fixing parser raising) is
converted by the outer `except` into a failure record. -/
def generate_course_introduction
    (oracle : Nat → Option String)
    (parse : String → Option IntroData)
    (fix : String → Except String IntroData) : StageResult IntroData :=
  match (retry_llm_call oracle).outcome with
  | .maxRetriesExceeded => .failure "Failed after 4 attempts"
  | .ok content => intro_parse parse fix content


/-! ## ORM rows (`backend/app/models/course.py`)

Rows are records of the mapped columns.  Database-generated surrogate keys
(`id`) and timestamps are not part of the pipeline's behaviour and are left
out; the foreign keys `chapter.course_id`, `section.chapter_id`,
`knowledge_point.section_id` are represented by the nesting of the result
lists. -/

structure CourseRecord where
  title : String
  description : Option String
  brief_description : Option String
  target_audience : Option String
  prerequisites : Option String
  difficulty_level : Option String
  estimated_hours : Option ℚ
  status : String
  learning_outcomes : Option (List String)
  course_highlights : Option (List String)
  creator_id : Nat
  deriving Repr, DecidableEq

structure ChapterRecord where
  course_id : Nat
  chapter_number : Int
  title : String
  description : String
  estimated_hours : ℚ
  difficulty_level : Option String
  learning_objectives : Option (List String)
  deriving Repr, DecidableEq

structure SectionRecord where
  section_number : String
  title : String
  description : String
  content : String
  estimated_minutes : Nat
  deriving Repr, DecidableEq

structure KnowledgePointRecord where
  point_id : String
  title : String
  description : String
  point_type : String
  prerequisites : List String
  deriving Repr, DecidableEq

/-- The mapped column names of the `Course` model (`models/course.py` plus the
`BaseModel` columns of `models/base.py`).  There is no `objectives` column. -/
def courseColumns : List String :=
  ["id", "created_at", "updated_at",
   "title", "description", "brief_description", "target_audience",
   "prerequisites", "difficulty_level", "estimated_hours", "status",
   "learning_outcomes", "course_highlights", "creator_id"]

/-- `Course.status` column default (`models/course.py`, line 18). -/
def courseStatusColumnDefault : String := "draft"

/-! ## The trigger endpoint `generate_course` (`courses.py`, lines 9-63) -/

/-- The recognized `course_config` options.  `duration` in the source is a
string such as `"16课时"`; `float(....replace("课时", ""))` turns it into a
number, which is what `durationHours` holds (`none` = key absent, default
string `"16"`). -/
structure CourseConfig where
  name : Option String
  title : Option String
  courseName : Option String
  audience : Option String
  level : Option String
  durationHours : Option ℚ
  chapters : Option Nat
  courseType : Option String
  deriving Repr, DecidableEq

/-- Python truthiness chain `a or b`: empty strings fall through. -/
def pickTruthy (o : Option String) : Option String :=
  match o with
  | some s => if s = "" then none else some s
  | none => none

/-- The `Course` row created (and committed) by `generate_course` before the
background pipeline starts. -/
def mkInitialCourse (cfg : CourseConfig) : CourseRecord :=
  { title := ((pickTruthy cfg.name).or ((pickTruthy cfg.title).or
        (pickTruthy cfg.courseName))).getD "AI生成课程"
    description := some "通过AI自动生成的课程内容"
    brief_description := none
    target_audience := some (cfg.audience.getD "")
    prerequisites := none
    difficulty_level := some (cfg.level.getD "intermediate")
    estimated_hours := some (cfg.durationHours.getD 16)
    status := "published"
    learning_outcomes := none
    course_highlights := none
    creator_id := 1 }

/-! ## Progress-channel events (`websocket.py`) -/

inductive Event where
  | progress (step : String) (percent : Nat) (message : String)
  | error (message : String) (step : Option String)
  | completion (success : Bool) (message : String) (course_id : Option Nat)
  deriving Repr, DecidableEq

/-! ## Session-operation trace -/

inductive DbOp where
  | addChapter (c : ChapterRecord)
  | addSection (s : SectionRecord)
  | addKnowledgePoint (k : KnowledgePointRecord)
  | flush
  | commit
  deriving Repr, DecidableEq

/-! ## Orchestrator (`generate_course_content_task_impl`) -/

/-- Course-row update of the successful introduction branch
(`courses.py`, lines 514-528).  `if intro_data.get('title')` and
`intro_data.get('brief_description') or course.description` test Python
truthiness, so empty strings fall through. -/
def applyIntro (c : CourseRecord) (d : IntroData) : CourseRecord :=
  { c with
    title := if d.title ≠ "" then d.title else c.title
    description := if d.brief_description ≠ "" then some d.brief_description
      else c.description
    brief_description := some d.brief_description
    target_audience := some d.target_audience
    prerequisites := some d.prerequisites
    learning_outcomes := some d.learning_outcomes
    course_highlights := some d.course_highlights
    difficulty_level := some d.difficulty_level }

/-- A chapter row built from the skeleton stage's descriptor at 0-based
position `i` (`courses.py`, lines 572-580): `chapter_number` is
`chapter_info.get('chapter_id', i + 1)` — the service-emitted identifier when
present. -/
def mkChapter (courseId : Nat) (i : Nat) (info : ChapterInfo) : ChapterRecord :=
  { course_id := courseId
    chapter_number := info.chapter_id.getD (Int.ofNat (i + 1))
    title := info.chapter_title.getD ("第" ++ toString (i + 1) ++ "章")
    description := info.chapter_description.getD ""
    estimated_hours := info.estimated_hours.getD 2
    difficulty_level := none
    learning_objectives := some (info.learning_objectives.getD []) }

/-- The single default chapter created when the skeleton stage fails
(`courses.py`, lines 595-604). -/
def fallbackChapter (courseId : Nat) : ChapterRecord :=
  { course_id := courseId
    chapter_number := 1
    title := "第一章：课程概述"
    description := "本章介绍课程的基本概念和核心内容"
    estimated_hours := 2
    difficulty_level := none
    learning_objectives := none }

/-- The empty dict `\x7b\x7d` paired with the fallback chapter. -/
def emptyChapterInfo : ChapterInfo :=
  ⟨none, none, none, none, none, none⟩

/-- A knowledge-point row for the `j`-th (1-based) point of the `i`-th
(1-based) section of chapter `ch` (`courses.py`, lines 654-664). -/
def buildKnowledgePoint (ch : Int) (i j : Nat) (kp : KPInfo) :
    KnowledgePointRecord :=
  { point_id := toString ch ++ "." ++ toString i ++ "." ++ toString j
    title := kp.title.getD ""
    description := kp.description.getD ""
    point_type := "concept"
    prerequisites := [] }

/-- A section row for the `i`-th (1-based) section descriptor of chapter `ch`
(`courses.py`, lines 637-649). -/
def buildSectionRecord (ch : Int) (i : Nat) (s : SectionInfo) : SectionRecord :=
  { section_number := toString ch ++ "." ++ toString i
    title := s.title.getD ""
    description := "第" ++ toString ch ++ "." ++ toString i ++ "节 - "
      ++ s.title.getD ""
    content := s.content.getD ("## " ++ s.title.getD "" ++ "\n\n暂无内容概要")
    estimated_minutes := 45 }

def buildKPs (ch : Int) (i : Nat) : List KPInfo → Nat → List KnowledgePointRecord
  | [], _ => []
  | kp :: rest, j => buildKnowledgePoint ch i j kp :: buildKPs ch i rest (j + 1)

/-- `for i, section_info in enumerate(sections_data, 1): ...` with the nested
`for j, kp_info in enumerate(knowledge_points_data, 1)`; insertion order is
the order of the stage output, with no re-sorting. -/
def buildSections (ch : Int) : List SectionInfo → Nat →
    List (SectionRecord × List KnowledgePointRecord)
  | [], _ => []
  | s :: rest, i =>
    (buildSectionRecord ch i s, buildKPs ch i (s.knowledge_points.getD []) 1)
      :: buildSections ch rest (i + 1)

/-- The placeholder section created when a chapter's content stage returns a
failure record (`courses.py`, lines 669-696). -/
def resultFallbackSection (ch : ChapterRecord) : SectionRecord :=
  let n := toString ch.chapter_number
  { section_number := n ++ ".1"
    title := "第" ++ n ++ "章内容概述"
    description := "第" ++ n ++ "章 - " ++ ch.title ++ "概述"
    content := "## 第" ++ n ++ "章内容概述\n\n### 主要内容：\n本章将介绍"
      ++ ch.title ++ "的核心概念和重要知识点。\n\n### 学习目标：\n通过本章学习，学员将能够：\n- 理解"
      ++ ch.title ++ "的基本概念\n- 掌握相关的实践方法\n- 应用所学知识解决实际问题\n\n### 重点内容：\n1. **基础概念** - 介绍基本理论和定义\n2. **实践方法** - 学习具体的操作技能  \n3. **案例分析** - 通过实例深化理解\n4. **总结与展望** - 整合知识并展望发展"
    estimated_minutes := 60 }

/-- The placeholder section created when a chapter's content stage raises
(`courses.py`, lines 698-724); the content embeds the first 100 characters of
the exception text. -/
def exceptionFallbackSection (ch : ChapterRecord) (msg : String) : SectionRecord :=
  let n := toString ch.chapter_number
  { section_number := n ++ ".1"
    title := "第" ++ n ++ "章内容"
    description := "第" ++ n ++ "章 - 内容生成中"
    content := "## 第" ++ n ++ "章内容\n\n### 内容生成状态：\n章节内容生成过程中遇到技术问题，系统正在处理中。\n\n### 临时内容：\n本章节将涵盖"
      ++ ch.title ++ "相关的重要内容，包括：\n- 核心概念和理论基础\n- 实际应用和操作方法\n- 案例分析和最佳实践\n\n请稍后刷新页面查看完整内容，或联系管理员获取帮助。\n\n**错误信息：** "
      ++ pyTake msg 100 ++ "..."
    estimated_minutes := 60 }

/-- Outcome of one chapter's `generate_simple_chapter_content` call as seen by
the loop: a success record, a failure record, or a raised exception (caught by
the loop's own `try/except`). -/
inductive ContentOutcome where
  | success (data : SimpleChapterContentData)
  | failure (error : String)
  | exception (msg : String)

/-- The sections (with their knowledge points) a chapter ends up with, per
outcome (`courses.py`, lines 632-724). -/
def contentForChapter (ch : ChapterRecord) (o : ContentOutcome) :
    List (SectionRecord × List KnowledgePointRecord) :=
  match o with
  | .success d => buildSections ch.chapter_number d.sections 1
  | .failure _ => [(resultFallbackSection ch, [])]
  | .exception m => [(exceptionFallbackSection ch m, [])]

/-- Session ops for one created section: `db.add(section); db.flush()` then
one `db.add` per knowledge point. -/
def sectionOps (p : SectionRecord × List KnowledgePointRecord) : List DbOp :=
  DbOp.addSection p.1 :: DbOp.flush :: p.2.map DbOp.addKnowledgePoint

/-- Session ops of one chapter's content handling: note that neither fallback
branch flushes, and no branch commits. -/
def contentOpsForChapter (ch : ChapterRecord) (o : ContentOutcome) : List DbOp :=
  match o with
  | .success d => ((buildSections ch.chapter_number d.sections 1).map sectionOps).flatten
  | .failure _ => [.addSection (resultFallbackSection ch)]
  | .exception m => [.addSection (exceptionFallbackSection ch m)]

/-- The per-chapter loop (`for idx, (chapter, chapter_info) in
enumerate(chapters_list, 1)`), producing the progress events, the session ops
and the populated chapters in order.  `k` is the 0-based position (so `idx =
k + 1`), `total` the chapter count; the progress percent is
`int(75 + (idx / total_chapters) * 20)`. -/
def contentPhase (outcomes : Nat → ContentOutcome) (total : Nat) :
    List (ChapterRecord × ChapterInfo) → Nat →
    List Event × List DbOp ×
      List (ChapterRecord × List (SectionRecord × List KnowledgePointRecord))
  | [], _ => ([], [], [])
  | (ch, _) :: rest, k =>
    let ev := Event.progress "content" (75 + (20 * (k + 1)) / total)
      ("正在生成第 " ++ toString ch.chapter_number ++ " 章内容: " ++ ch.title)
    let o := outcomes k
    let r := contentPhase outcomes total rest (k + 1)
    (ev :: r.1, contentOpsForChapter ch o ++ r.2.1,
      (ch, contentForChapter ch o) :: r.2.2)

/-- One run's inputs: the course row as it stands when the task reads it, and
the outcome of every external stage call. -/
structure RunInput where
  courseId : Nat
  course : CourseRecord
  introResult : StageResult IntroData
  objectivesResult : StageResult ObjectivesData
  structureResult : StageResult StructureData
  contentResults : Nat → ContentOutcome

structure RunResult where
  events : List Event
  dbTrace : List DbOp
  course : CourseRecord
  /-- value of the unmapped Python attribute `course.objectives` at run end -/
  objectivesAttr : Option ObjectivesData
  chapters : List (ChapterRecord × List (SectionRecord × List KnowledgePointRecord))

/-- `generate_course_content_task_impl` (`courses.py`, lines 455-734) on a run
in which the course row exists and no exception escapes the stage-level
guards (the `except` at line 736 is modelled separately by
`markRunFailed`). -/
def runGeneration (inp : RunInput) : RunResult :=
  let evs0 : List Event :=
    [.progress "initializing" 5 "开始课程生成...",
     .progress "preparing" 10 "准备文档内容...",
     .progress "introduction" 20 "生成课程介绍..."]
  let introStep : CourseRecord × List Event × List DbOp :=
    match inp.introResult with
    | .success d =>
      (applyIntro inp.course d,
       [Event.progress "introduction" 30 "课程介绍生成完成"], [DbOp.commit])
    | .failure e =>
      (inp.course,
       [Event.error ("Failed to generate course introduction: " ++ e)
          (some "introduction")], [])
  let course1 := introStep.1
  let evs2 : List Event := [.progress "objectives" 40 "生成学习目标..."]
  let objStep : Option ObjectivesData × List Event :=
    match inp.objectivesResult with
    | .success d => (some d, [Event.progress "objectives" 50 "学习目标生成完成"])
    | .failure e =>
      (none, [Event.error ("Failed to generate learning objectives: " ++ e)
        (some "objectives")])
  let evs4 : List Event := [.progress "structure" 60 "生成章节结构..."]
  let structStep :
      CourseRecord × List (ChapterRecord × ChapterInfo) × List Event × List DbOp :=
    match inp.structureResult with
    | .success sd =>
      let chs := sd.chapters.enum.map
        (fun p => (mkChapter inp.courseId p.1 p.2, p.2))
      ({ course1 with estimated_hours :=
          match sd.estimated_hours with
          | some v => some v
          | none => course1.estimated_hours },
       chs,
       [Event.progress "structure" 70
          ("生成了 " ++ toString sd.chapters.length ++ " 个章节框架")],
       (chs.map (fun p => [DbOp.addChapter p.1, DbOp.flush])).flatten)
    | .failure e =>
      (course1, [(fallbackChapter inp.courseId, emptyChapterInfo)],
       [Event.error ("Failed to generate chapter structure: " ++ e)
          (some "structure"),
        Event.progress "structure" 70 "使用默认章节结构"],
       [DbOp.addChapter (fallbackChapter inp.courseId), DbOp.flush])
  let course2 := structStep.1
  let chaptersList := structStep.2.1
  let evs6 : List Event := [.progress "content" 75 "开始生成章节详细内容..."]
  let content := contentPhase inp.contentResults chaptersList.length chaptersList 0
  let course3 := { course2 with status := "published" }
  { events := evs0 ++ introStep.2.1 ++ evs2 ++ objStep.2 ++ evs4
      ++ structStep.2.2.1 ++ evs6 ++ content.1
      ++ [Event.completion true "课程生成完成！"
            (if inp.courseId = 0 then none else some inp.courseId)]
    dbTrace := introStep.2.2 ++ structStep.2.2.2 ++ [DbOp.commit]
      ++ content.2.1 ++ [DbOp.commit]
    course := course3
    objectivesAttr := objStep.1
    chapters := content.2.2 }

/-- Error handler of the outer `except` (`courses.py`, lines 741-746): the
only path that marks a course `failed`. -/
def markRunFailed (c : CourseRecord) : CourseRecord :=
  { c with status := "failed" }

/-! ## Trace observers -/

def eventPercents (evs : List Event) : List Nat :=
  evs.filterMap fun e =>
    match e with
    | .progress _ p _ => some p
    | _ => none

def isCompletion : Event → Bool
  | .completion _ _ _ => true
  | _ => false

def completionCount (evs : List Event) : Nat :=
  evs.countP isCompletion

def isCommitOp : DbOp → Bool
  | .commit => true
  | _ => false

def isAddSectionOp : DbOp → Bool
  | .addSection _ => true
  | _ => false

def isAddChapterOp : DbOp → Bool
  | .addChapter _ => true
  | _ => false

def commitCount (t : List DbOp) : Nat :=
  t.countP isCommitOp

/-- Does the trace contain a commit with a later `addSection`? -/
def commitThenSection : List DbOp → Bool
  | [] => false
  | op :: rest => (isCommitOp op && rest.any isAddSectionOp) || commitThenSection rest

/-- Does the trace contain an `addSection`, then a commit, then another
`addSection`?  This is what per-chapter content commits would look like. -/
def sectionCommitSection : List DbOp → Bool
  | [] => false
  | op :: rest => (isAddSectionOp op && commitThenSection rest) || sectionCommitSection rest

/-- Does the trace add a chapter after having added a section? -/
def sectionThenChapter : List DbOp → Bool
  | [] => false
  | op :: rest => (isAddSectionOp op && rest.any isAddChapterOp) || sectionThenChapter rest


/-! # Theorems

## Retry policy (claim C3) -/

lemma attemptOk_iff (o : Option String) :
    attemptOk o = true ↔ ∃ s, o = some s ∧ 10 ≤ (pyStrip s).length := by
  cases o <;> simp [attemptOk]

lemma retryGo_succ_ok (o : Nat → Option String) (mr a n : Nat) (s : String)
    (h : o a = some s) (h10 : 10 ≤ (pyStrip s).length) :
    retryGo o mr a (n + 1) = ⟨a + 1, [], .ok s⟩ := by
  conv_lhs => unfold retryGo
  rw [h]
  simp only [h10, if_true]

lemma retryGo_succ_fail (o : Nat → Option String) (mr a n : Nat)
    (hfail : attemptOk (o a) = false) :
    retryGo o mr a (n + 1)
      = if a < mr then
          ⟨(retryGo o mr (a + 1) n).attemptsMade,
            2 ^ a :: (retryGo o mr (a + 1) n).delays,
            (retryGo o mr (a + 1) n).outcome⟩
        else ⟨a + 1, [], .maxRetriesExceeded⟩ := by
  conv_lhs => unfold retryGo
  cases h : o a with
  | none => rfl
  | some s =>
    have h10 : ¬ 10 ≤ (pyStrip s).length := by
      rw [h] at hfail
      simpa [attemptOk] using hfail
    simp only [h10, if_false]

lemma retryGo_attempts_le (o : Nat → Option String) (mr : Nat) :
    ∀ (f a : Nat), (retryGo o mr a f).attemptsMade ≤ a + f := by
  intro f
  induction f with
  | zero => intro a; simp [retryGo]
  | succ n ih =>
    intro a
    cases hOk : attemptOk (o a) with
    | true =>
      obtain ⟨s, hs, h10⟩ := (attemptOk_iff (o a)).1 hOk
      rw [retryGo_succ_ok o mr a n s hs h10]
      dsimp only
      omega
    | false =>
      rw [retryGo_succ_fail o mr a n hOk]
      by_cases h : a < mr
      · rw [if_pos h]
        dsimp only
        have := ih (a + 1)
        omega
      · rw [if_neg h]
        dsimp only
        omega

lemma retryGo_attempts_ge (o : Nat → Option String) (mr : Nat) :
    ∀ (f a : Nat), a ≤ (retryGo o mr a f).attemptsMade := by
  intro f
  induction f with
  | zero => intro a; simp [retryGo]
  | succ n ih =>
    intro a
    cases hOk : attemptOk (o a) with
    | true =>
      obtain ⟨s, hs, h10⟩ := (attemptOk_iff (o a)).1 hOk
      rw [retryGo_succ_ok o mr a n s hs h10]
      dsimp only
      omega
    | false =>
      rw [retryGo_succ_fail o mr a n hOk]
      by_cases h : a < mr
      · rw [if_pos h]
        dsimp only
        have := ih (a + 1)
        omega
      · rw [if_neg h]
        dsimp only
        omega

lemma retryGo_attempts_ge' (o : Nat → Option String) (mr : Nat)
    (f a : Nat) (hf : 0 < f) : a + 1 ≤ (retryGo o mr a f).attemptsMade := by
  obtain ⟨n, rfl⟩ : ∃ n, f = n + 1 := ⟨f - 1, by omega⟩
  cases hOk : attemptOk (o a) with
  | true =>
    obtain ⟨s, hs, h10⟩ := (attemptOk_iff (o a)).1 hOk
    rw [retryGo_succ_ok o mr a n s hs h10]
  | false =>
    rw [retryGo_succ_fail o mr a n hOk]
    by_cases h : a < mr
    · rw [if_pos h]
      dsimp only
      have := retryGo_attempts_ge o mr n (a + 1)
      omega
    · rw [if_neg h]

lemma retryGo_exhaust (o : Nat → Option String) (mr : Nat) :
    ∀ (f a : Nat), a ≤ mr → mr < a + f →
      (retryGo o mr a f).outcome = .maxRetriesExceeded →
      (retryGo o mr a f).attemptsMade = mr + 1 := by
  intro f
  induction f with
  | zero => intro a h1 h2; omega
  | succ n ih =>
    intro a h1 h2
    cases hOk : attemptOk (o a) with
    | true =>
      obtain ⟨s, hs, h10⟩ := (attemptOk_iff (o a)).1 hOk
      rw [retryGo_succ_ok o mr a n s hs h10]
      intro hco
      exact absurd hco (by simp)
    | false =>
      rw [retryGo_succ_fail o mr a n hOk]
      by_cases h : a < mr
      · rw [if_pos h]
        exact ih (a + 1) (by omega) (by omega)
      · rw [if_neg h]
        dsimp only
        intro
        omega

lemma retryGo_delays (o : Nat → Option String) (mr : Nat) :
    ∀ (f a : Nat), mr < a + f →
      (retryGo o mr a f).delays
        = (List.range' a ((retryGo o mr a f).attemptsMade - 1 - a)).map (2 ^ ·) := by
  intro f
  induction f with
  | zero => intro a _; simp [retryGo]
  | succ n ih =>
    intro a hmr
    cases hOk : attemptOk (o a) with
    | true =>
      obtain ⟨s, hs, h10⟩ := (attemptOk_iff (o a)).1 hOk
      rw [retryGo_succ_ok o mr a n s hs h10]
      simp
    | false =>
      rw [retryGo_succ_fail o mr a n hOk]
      by_cases h : a < mr
      · rw [if_pos h]
        have hge : a + 2 ≤ (retryGo o mr (a + 1) n).attemptsMade :=
          retryGo_attempts_ge' o mr n (a + 1) (by omega)
        have heq : (retryGo o mr (a + 1) n).attemptsMade - 1 - a
            = ((retryGo o mr (a + 1) n).attemptsMade - 1 - (a + 1)) + 1 := by omega
        dsimp only
        rw [heq, List.range'_succ, List.map_cons, ih (a + 1) (by omega)]
      · rw [if_neg h]
        simp

lemma retryGo_normalize (o : Nat → Option String) (mr : Nat) :
    ∀ (f a : Nat),
      retryGo (fun n => if attemptOk (o n) then o n else none) mr a f
        = retryGo o mr a f := by
  intro f
  induction f with
  | zero => intro a; rfl
  | succ n ih =>
    intro a
    cases hOk : attemptOk (o a) with
    | true =>
      obtain ⟨s, hs, h10⟩ := (attemptOk_iff (o a)).1 hOk
      have hs' : (fun n => if attemptOk (o n) then o n else none) a = some s := by
        show (if attemptOk (o a) = true then o a else none) = some s
        rw [hOk]
        simp [hs]
      rw [retryGo_succ_ok _ mr a n s hs' h10, retryGo_succ_ok o mr a n s hs h10]
    | false =>
      have hs' : attemptOk ((fun n => if attemptOk (o n) then o n else none) a)
          = false := by
        show attemptOk (if attemptOk (o a) = true then o a else none) = false
        rw [hOk]
        rfl
      rw [retryGo_succ_fail _ mr a n hs', retryGo_succ_fail o mr a n hOk, ih (a + 1)]

/-- Claim C3 (amended): `_retry_llm_call` makes up to 4 attempts
(`max_retries = 3` retries after the initial attempt, `for attempt in
range(max_retries + 1)`), sleeping 1s, 2s, 4s between consecutive attempts;
a response whose stripped length is under 10 characters is treated exactly
like a transport failure and retried (the run only depends on the
quality-normalized oracle); exhausting all 4 attempts raises the terminal
`LLMMaxRetriesExceededError`, which the stage function catches and converts
into a stage failure record. -/
theorem retry_policy_amended (oracle : Nat → Option String)
    (parse : String → Option SimpleChapterContentData) :
    (retry_llm_call oracle).attemptsMade ≤ 4
    ∧ (retry_llm_call oracle).delays
        = [1, 2, 4].take ((retry_llm_call oracle).attemptsMade - 1)
    ∧ ((retry_llm_call oracle).outcome = .maxRetriesExceeded →
        (retry_llm_call oracle).attemptsMade = 4
        ∧ (retry_llm_call oracle).delays = [1, 2, 4])
    ∧ retry_llm_call (fun n => if attemptOk (oracle n) then oracle n else none)
        = retry_llm_call oracle
    ∧ ((retry_llm_call oracle).outcome = .maxRetriesExceeded →
        (generate_simple_chapter_content oracle parse).isFailure = true) := by
  have hle : (retry_llm_call oracle).attemptsMade ≤ 4 := by
    have := retryGo_attempts_le oracle 3 4 0
    simpa [retry_llm_call] using this
  have hdel : (retry_llm_call oracle).delays
      = (List.range' 0 ((retry_llm_call oracle).attemptsMade - 1)).map (2 ^ ·) := by
    have := retryGo_delays oracle 3 4 0 (by omega)
    simpa [retry_llm_call] using this
  have htake : (retry_llm_call oracle).delays
      = [1, 2, 4].take ((retry_llm_call oracle).attemptsMade - 1) := by
    rw [hdel]
    have h3 : (retry_llm_call oracle).attemptsMade - 1 ≤ 3 := by omega
    interval_cases h : (retry_llm_call oracle).attemptsMade - 1 <;> decide
  refine ⟨hle, htake, ?_, ?_, ?_⟩
  · intro hexh
    have h4 : (retry_llm_call oracle).attemptsMade = 4 := by
      have := retryGo_exhaust oracle 3 4 0 (by omega) (by omega) hexh
      simpa [retry_llm_call] using this
    refine ⟨h4, ?_⟩
    rw [htake, h4]
    decide
  · exact retryGo_normalize oracle 3 4 0
  · intro hexh
    unfold generate_simple_chapter_content
    rw [hexh]
    rfl

/-- Claim C3 counterexample: with every external call failing, the retry
layer makes 4 attempts, not the 3 the claim states. -/
theorem retry_policy_counterexample :
    (retry_llm_call (fun _ => none)).attemptsMade = 4
    ∧ ¬ (retry_llm_call (fun _ => none)).attemptsMade ≤ 3 := by
  constructor
  · rfl
  · decide

/-- Witness for `retry_policy_amended` at the all-failures oracle. -/
theorem retry_policy_amended_witness :
    (retry_llm_call (fun _ => none)).outcome = .maxRetriesExceeded
    ∧ (retry_llm_call (fun _ => none)).attemptsMade = 4
    ∧ (generate_simple_chapter_content (fun _ => none) (fun _ => none)).isFailure
        = true := by
  refine ⟨by decide, ?_, ?_⟩
  · exact ((retry_policy_amended (fun _ => none) (fun _ => none)).2.2.1 (by decide)).1
  · exact (retry_policy_amended (fun _ => none) (fun _ => none)).2.2.2.2 (by decide)


/-! ## Progress events (claim C2) -/

/-- Number of chapters the content loop iterates over. -/
def runChapterCount (inp : RunInput) : Nat :=
  match inp.structureResult with
  | .success sd => sd.chapters.length
  | .failure _ => 1

lemma contentPhase_events_percents (out : Nat → ContentOutcome) (K : Nat) :
    ∀ (chaps : List (ChapterRecord × ChapterInfo)) (k : Nat),
      eventPercents (contentPhase out K chaps k).1
        = (List.range' (k + 1) chaps.length).map (fun idx => 75 + (20 * idx) / K) := by
  intro chaps
  induction chaps with
  | nil => intro k; simp [contentPhase, eventPercents]
  | cons hd tl ih =>
    intro k
    obtain ⟨ch, info⟩ := hd
    show (75 + (20 * (k + 1)) / K)
        :: eventPercents (contentPhase out K tl (k + 1)).1 = _
    rw [ih (k + 1), List.length_cons, List.range'_succ, List.map_cons]

lemma contentPhase_no_completion (out : Nat → ContentOutcome) (K : Nat) :
    ∀ (chaps : List (ChapterRecord × ChapterInfo)) (k : Nat),
      (contentPhase out K chaps k).1.countP isCompletion = 0 := by
  intro chaps
  induction chaps with
  | nil => intro k; rfl
  | cons hd tl ih =>
    intro k
    obtain ⟨ch, info⟩ := hd
    show List.countP isCompletion
        (Event.progress _ _ _ :: (contentPhase out K tl (k + 1)).1) = 0
    rw [List.countP_cons]
    simp [ih (k + 1), isCompletion]

lemma eventPercents_nil : eventPercents [] = [] := rfl

lemma eventPercents_progress (st : String) (p : Nat) (m : String) (l : List Event) :
    eventPercents (.progress st p m :: l) = p :: eventPercents l := rfl

lemma eventPercents_error (m : String) (st : Option String) (l : List Event) :
    eventPercents (.error m st :: l) = eventPercents l := rfl

lemma eventPercents_completion (su : Bool) (m : String) (c : Option Nat)
    (l : List Event) :
    eventPercents (.completion su m c :: l) = eventPercents l := rfl

lemma eventPercents_append (l1 l2 : List Event) :
    eventPercents (l1 ++ l2) = eventPercents l1 ++ eventPercents l2 :=
  List.filterMap_append _ _ _

lemma run_percents (inp : RunInput) :
    eventPercents (runGeneration inp).events
      = [5, 10, 20]
        ++ (match inp.introResult with
            | .success _ => [30]
            | .failure _ => [])
        ++ [40]
        ++ (match inp.objectivesResult with
            | .success _ => [50]
            | .failure _ => [])
        ++ [60, 70, 75]
        ++ (List.range' 1 (runChapterCount inp)).map
            (fun idx => 75 + (20 * idx) / runChapterCount inp) := by
  obtain ⟨cid, course, ir, orr, sr, cr⟩ := inp
  cases ir <;> cases orr <;> cases sr <;>
    simp [runGeneration, runChapterCount, eventPercents_append,
      eventPercents_progress, eventPercents_error, eventPercents_completion,
      eventPercents_nil, contentPhase_events_percents, List.enum_length]

lemma cps_sorted (K : Nat) :
    ((List.range' 1 K).map (fun idx => 75 + (20 * idx) / K)).Sorted (· ≤ ·) := by
  refine List.Pairwise.map _ ?_ (List.pairwise_lt_range' 1 K)
  intro a b hab
  show 75 + (20 * a) / K ≤ 75 + (20 * b) / K
  have h1 : 20 * a ≤ 20 * b := by omega
  exact Nat.add_le_add_left (Nat.div_le_div_right h1) 75

lemma cps_bounds (K : Nat) :
    ∀ p ∈ (List.range' 1 K).map (fun idx => 75 + (20 * idx) / K),
      75 ≤ p ∧ p ≤ 95 := by
  intro p hp
  rw [List.mem_map] at hp
  obtain ⟨idx, hidx, rfl⟩ := hp
  rw [List.mem_range'] at hidx
  obtain ⟨i, hi, rfl⟩ := hidx
  have hK : 0 < K := by omega
  have h1 : 20 * (1 + 1 * i) ≤ 20 * K := by omega
  have h2 : 20 * (1 + 1 * i) / K ≤ 20 * K / K := Nat.div_le_div_right h1
  have h3 : 20 * K / K = 20 := Nat.mul_div_cancel 20 hK
  rw [h3] at h2
  constructor
  · exact Nat.le_add_right 75 _
  · exact le_trans (Nat.add_le_add_left h2 75) (by norm_num)

lemma sorted_prefix_cps (K : Nat) (pre : List Nat)
    (hpre : pre.Sorted (· ≤ ·)) (hb : ∀ x ∈ pre, x ≤ 75) :
    (pre ++ (List.range' 1 K).map (fun idx => 75 + (20 * idx) / K)).Sorted
      (· ≤ ·) := by
  rw [List.Sorted, List.pairwise_append]
  refine ⟨hpre, cps_sorted K, ?_⟩
  intro x hx y hy
  have h75 := (cps_bounds K y hy).1
  have := hb x hx
  omega

lemma mem_prefix_cps_le (K : Nat) (pre : List Nat) (hb : ∀ x ∈ pre, x ≤ 95) :
    ∀ p ∈ pre ++ (List.range' 1 K).map (fun idx => 75 + (20 * idx) / K),
      p ≤ 95 := by
  intro p hp
  rcases List.mem_append.1 hp with h | h
  · exact hb p h
  · exact (cps_bounds K p h).2


lemma run_completionCount (inp : RunInput) :
    completionCount (runGeneration inp).events = 1 := by
  obtain ⟨cid, course, ir, orr, sr, cr⟩ := inp
  cases ir <;> cases orr <;> cases sr <;>
    simp [runGeneration, completionCount, List.countP_append, List.countP_cons,
      contentPhase_no_completion, isCompletion]

/-- Claim C2 (amended): for every run, the progress percents are monotonically
non-decreasing through the fixed checkpoints 5, 10, 20, (30), 40, (50), 60,
70, 75 and then `int(75 + 20*(idx/K))` per chapter, and the run publishes
exactly one completion event — but the percent sequence tops out at 95 (the
final chapter's `int(75 + 20) = 95`); no progress event ever carries 100. -/
theorem progress_events_amended (inp : RunInput) :
    (eventPercents (runGeneration inp).events).Sorted (· ≤ ·)
    ∧ completionCount (runGeneration inp).events = 1
    ∧ ∀ p ∈ eventPercents (runGeneration inp).events, p ≤ 95 := by
  refine ⟨?_, run_completionCount inp, ?_⟩
  · rw [run_percents]
    cases hintroR : inp.introResult <;> cases hobjR : inp.objectivesResult
    · exact sorted_prefix_cps _ [5, 10, 20, 30, 40, 50, 60, 70, 75]
        (by decide) (by decide)
    · exact sorted_prefix_cps _ [5, 10, 20, 30, 40, 60, 70, 75]
        (by decide) (by decide)
    · exact sorted_prefix_cps _ [5, 10, 20, 40, 50, 60, 70, 75]
        (by decide) (by decide)
    · exact sorted_prefix_cps _ [5, 10, 20, 40, 60, 70, 75]
        (by decide) (by decide)
  · rw [run_percents]
    cases hintroR : inp.introResult <;> cases hobjR : inp.objectivesResult
    · exact mem_prefix_cps_le _ [5, 10, 20, 30, 40, 50, 60, 70, 75] (by decide)
    · exact mem_prefix_cps_le _ [5, 10, 20, 30, 40, 60, 70, 75] (by decide)
    · exact mem_prefix_cps_le _ [5, 10, 20, 40, 50, 60, 70, 75] (by decide)
    · exact mem_prefix_cps_le _ [5, 10, 20, 40, 60, 70, 75] (by decide)


/-- All-success demo chapter content used by the concrete run inputs below. -/
def demoContent : SimpleChapterContentData :=
  ⟨[⟨some "小节", some "内容", some [⟨some "点", some "述"⟩]⟩]⟩

/-- A demo one-chapter skeleton result. -/
def demoStructure : StructureData :=
  ⟨some 1, some 8,
   [⟨some 1, some "第一章", some "描述", some 4, some "beginner", some ["目标"]⟩]⟩

/-! ## Claim C1: skeleton failure recovered by one fallback chapter -/

/-- Claim C1: when the skeleton stage returns a failure record (which is what
every-retry-exhausted produces), the orchestrator creates exactly the one
default fallback chapter, continues the pipeline to its completion event, and
the course ends `published`, not `failed`. -/
theorem skeleton_failure_fallback (inp : RunInput) (e : String)
    (h : inp.structureResult = .failure e) :
    (runGeneration inp).chapters.map Prod.fst = [fallbackChapter inp.courseId]
    ∧ (runGeneration inp).chapters.length = 1
    ∧ (runGeneration inp).course.status = "published"
    ∧ completionCount (runGeneration inp).events = 1 := by
  refine ⟨?_, ?_, rfl, run_completionCount inp⟩
  · simp [runGeneration, h, contentPhase]
  · simp [runGeneration, h, contentPhase]

def c1Input : RunInput :=
  { courseId := 5
    course := mkInitialCourse ⟨none, none, none, none, none, none, none, none⟩
    introResult := .failure "intro failed"
    objectivesResult := .failure "objectives failed"
    structureResult := .failure "skeleton failed on every retry"
    contentResults := fun _ => .failure "content failed" }

/-- Witness for `skeleton_failure_fallback` on a run where every stage fails. -/
theorem skeleton_failure_fallback_witness :
    (runGeneration c1Input).chapters.map Prod.fst = [fallbackChapter 5]
    ∧ (runGeneration c1Input).course.status = "published" := by
  have h := skeleton_failure_fallback c1Input "skeleton failed on every retry" rfl
  exact ⟨h.1, h.2.2.1⟩

/-! ## Claim C2, counterexample part -/

def c2Input : RunInput :=
  { courseId := 1
    course := mkInitialCourse ⟨none, none, none, none, none, none, none, none⟩
    introResult := .success
      ⟨"算法基础", "面向初学者", "大学生", "无", ["掌握"], ["亮点"], "beginner", "16"⟩
    objectivesResult := .success ⟨["总体"], [], [], []⟩
    structureResult := .success demoStructure
    contentResults := fun _ => .success demoContent }

/-- Claim C2 counterexample: on a fully successful one-chapter run the percent
sequence is 5, 10, 20, 30, 40, 50, 60, 70, 75, 95 — it never reaches 100, so
the claimed checkpoint list "ending at 100" is wrong. -/
theorem progress_events_counterexample :
    eventPercents (runGeneration c2Input).events
      = [5, 10, 20, 30, 40, 50, 60, 70, 75, 95]
    ∧ ¬ (100 ∈ eventPercents (runGeneration c2Input).events) := by decide

/-! ## Claim C9: course status lifecycle -/

def c9Config : CourseConfig :=
  ⟨some "Python入门", none, none, some "初学者", some "beginner", some 16,
   some 3, some "编程"⟩

/-- Claim C9 counterexample: the `generate_course` endpoint creates the course
row with status `published` immediately — before the generation pipeline has
run at all — so the lifecycle does not start at `draft` and `published` does
not imply the pipeline completed. -/
theorem status_lifecycle_counterexample :
    (mkInitialCourse c9Config).status = "published"
    ∧ (mkInitialCourse c9Config).status ≠ "draft" := by decide

/-- Claim C9 (amended): the `status` column default is `draft`, but the
generation endpoint creates its course rows with status `published` right
away; a completed pipeline run leaves the course `published`, and the outer
exception handler — the only failure path — marks it `failed`. -/
theorem status_lifecycle_amended (cfg : CourseConfig) (inp : RunInput)
    (c : CourseRecord) :
    courseStatusColumnDefault = "draft"
    ∧ (mkInitialCourse cfg).status = "published"
    ∧ (runGeneration inp).course.status = "published"
    ∧ (markRunFailed c).status = "failed" :=
  ⟨rfl, rfl, rfl, rfl⟩

/-! ## Claim C7: chapter numbering, counterexample part -/

def c7Input : RunInput :=
  { courseId := 1
    course := mkInitialCourse ⟨none, none, none, none, none, none, none, none⟩
    introResult := .success
      ⟨"算法基础", "面向初学者", "大学生", "无", ["掌握"], ["亮点"], "beginner", "16"⟩
    objectivesResult := .success ⟨["总体"], [], [], []⟩
    structureResult := .success ⟨some 2, some 8,
      [⟨some 2, some "第一章", some "描述", some 4, some "beginner", some ["目标"]⟩,
       ⟨some 2, some "第二章", some "描述", some 3, some "beginner", some ["目标"]⟩]⟩
    contentResults := fun _ => .success demoContent }

/-- Claim C7 counterexample: `chapter_number` is
`chapter_info.get('chapter_id', i + 1)`, so when the text-generation service
emits `chapter_id = 2` for both chapters the stored numbers are `[2, 2]` —
neither unique nor consecutive starting at 1. -/
theorem chapter_numbering_counterexample :
    (runGeneration c7Input).chapters.map (fun p => p.1.chapter_number) = [2, 2]
    ∧ ¬ ((runGeneration c7Input).chapters.map
          (fun p => p.1.chapter_number)).Nodup
    ∧ (runGeneration c7Input).chapters.map (fun p => p.1.chapter_number)
        ≠ [1, 2] := by decide


/-! ## Indexed access into the content loop's results -/

lemma contentPhase_chapters_getElem (out : Nat → ContentOutcome) (K : Nat) :
    ∀ (chaps : List (ChapterRecord × ChapterInfo)) (k i : Nat),
      (contentPhase out K chaps k).2.2[i]?
        = chaps[i]?.map (fun p => (p.1, contentForChapter p.1 (out (k + i)))) := by
  intro chaps
  induction chaps with
  | nil => intro k i; simp [contentPhase]
  | cons hd tl ih =>
    intro k i
    obtain ⟨ch, info⟩ := hd
    cases i with
    | zero =>
      show ((ch, contentForChapter ch (out k)) :: (contentPhase out K tl (k + 1)).2.2)[0]?
          = _
      simp
    | succ n =>
      show ((ch, contentForChapter ch (out k)) :: (contentPhase out K tl (k + 1)).2.2)[n + 1]?
          = _
      rw [List.getElem?_cons_succ, List.getElem?_cons_succ, ih (k + 1) n]
      have : k + 1 + n = k + (n + 1) := by omega
      rw [this]

lemma contentPhase_chapters_length (out : Nat → ContentOutcome) (K : Nat) :
    ∀ (chaps : List (ChapterRecord × ChapterInfo)) (k : Nat),
      (contentPhase out K chaps k).2.2.length = chaps.length := by
  intro chaps
  induction chaps with
  | nil => intro k; rfl
  | cons hd tl ih =>
    intro k
    obtain ⟨ch, info⟩ := hd
    show ((ch, contentForChapter ch (out k)) :: (contentPhase out K tl (k + 1)).2.2).length
        = tl.length + 1
    rw [List.length_cons, ih (k + 1)]

/-- The `chapters_list` the orchestrator feeds to the content loop. -/
def runChaptersList (inp : RunInput) : List (ChapterRecord × ChapterInfo) :=
  match inp.structureResult with
  | .success sd =>
    sd.chapters.enum.map (fun p => (mkChapter inp.courseId p.1 p.2, p.2))
  | .failure _ => [(fallbackChapter inp.courseId, emptyChapterInfo)]

lemma run_chapters_eq (inp : RunInput) :
    (runGeneration inp).chapters
      = (contentPhase inp.contentResults (runChaptersList inp).length
          (runChaptersList inp) 0).2.2 := by
  obtain ⟨cid, course, ir, orr, sr, cr⟩ := inp
  cases sr <;> rfl

/-! ## Claim C4: per-chapter content failure is locally contained -/

/-- Claim C4: the sections (and knowledge points) stored for the chapter at
position `k` are a function of that chapter's own record and its own content
outcome only: a failure outcome yields exactly the single placeholder section,
an exception outcome the single exception placeholder, and a success outcome
exactly the tree built from that chapter's stage output — so one chapter's
failure never touches another chapter's content. -/
theorem chapter_content_isolation (inp : RunInput) (k : Nat)
    (ch : ChapterRecord) (secs : List (SectionRecord × List KnowledgePointRecord))
    (hk : (runGeneration inp).chapters[k]? = some (ch, secs)) :
    secs = contentForChapter ch (inp.contentResults k)
    ∧ (∀ e, inp.contentResults k = .failure e →
        secs = [(resultFallbackSection ch, [])])
    ∧ (∀ m, inp.contentResults k = .exception m →
        secs = [(exceptionFallbackSection ch m, [])])
    ∧ (∀ d, inp.contentResults k = .success d →
        secs = buildSections ch.chapter_number d.sections 1) := by
  rw [run_chapters_eq inp, contentPhase_chapters_getElem] at hk
  rw [Option.map_eq_some'] at hk
  obtain ⟨p, hp, heq⟩ := hk
  have h1 : p.1 = ch := congrArg Prod.fst heq
  have h2 : contentForChapter p.1 (inp.contentResults (0 + k)) = secs :=
    congrArg Prod.snd heq
  rw [h1] at h2
  have hz : (0 : Nat) + k = k := by omega
  rw [hz] at h2
  refine ⟨h2.symm, ?_, ?_, ?_⟩
  · intro e he
    rw [← h2, he]
    rfl
  · intro m hm
    rw [← h2, hm]
    rfl
  · intro d hd
    rw [← h2, hd]
    rfl

def c4Input : RunInput :=
  { courseId := 9
    course := mkInitialCourse ⟨none, none, none, none, none, none, none, none⟩
    introResult := .success
      ⟨"数据结构", "入门课程", "大学生", "无", ["掌握"], ["亮点"], "beginner", "16"⟩
    objectivesResult := .success ⟨["总体"], [], [], []⟩
    structureResult := .success ⟨some 2, some 8,
      [⟨some 1, some "第一章", some "描述", some 4, some "beginner", some ["目标"]⟩,
       ⟨some 2, some "第二章", some "描述", some 3, some "beginner", some ["目标"]⟩]⟩
    contentResults := fun k =>
      if k = 0 then .failure "content stage failed" else .success demoContent }

set_option maxRecDepth 4000 in
/-- Witness for `chapter_content_isolation`: in a two-chapter run whose first
content stage fails, chapter 1 gets exactly the placeholder section and
chapter 2 keeps its generated content. -/
theorem chapter_content_isolation_witness :
    ∃ ch1 secs1 ch2 secs2,
      (runGeneration c4Input).chapters[0]? = some (ch1, secs1)
      ∧ (runGeneration c4Input).chapters[1]? = some (ch2, secs2)
      ∧ secs1 = [(resultFallbackSection ch1, [])]
      ∧ secs2 = buildSections ch2.chapter_number demoContent.sections 1 := by
  refine ⟨_, _, _, _, rfl, rfl, ?_, ?_⟩
  · exact (chapter_content_isolation c4Input 0 _ _ rfl).2.1 "content stage failed" rfl
  · exact (chapter_content_isolation c4Input 1 _ _ rfl).2.2.2 demoContent rfl


/-! ## Claim C6: dotted identifiers of sections and knowledge points -/

lemma buildKPs_getElem (ch : Int) (i : Nat) :
    ∀ (kps : List KPInfo) (j0 j : Nat),
      (buildKPs ch i kps j0)[j]?
        = kps[j]?.map (fun kp => buildKnowledgePoint ch i (j0 + j) kp) := by
  intro kps
  induction kps with
  | nil => intro j0 j; simp [buildKPs]
  | cons hd tl ih =>
    intro j0 j
    cases j with
    | zero =>
      show (buildKnowledgePoint ch i j0 hd :: buildKPs ch i tl (j0 + 1))[0]? = _
      simp
    | succ n =>
      show (buildKnowledgePoint ch i j0 hd :: buildKPs ch i tl (j0 + 1))[n + 1]? = _
      rw [List.getElem?_cons_succ, List.getElem?_cons_succ, ih (j0 + 1) n]
      have : j0 + 1 + n = j0 + (n + 1) := by omega
      rw [this]

lemma buildSections_getElem (ch : Int) :
    ∀ (ss : List SectionInfo) (i0 i : Nat),
      (buildSections ch ss i0)[i]?
        = ss[i]?.map (fun sInfo =>
            (buildSectionRecord ch (i0 + i) sInfo,
             buildKPs ch (i0 + i) (sInfo.knowledge_points.getD []) 1)) := by
  intro ss
  induction ss with
  | nil => intro i0 i; simp [buildSections]
  | cons hd tl ih =>
    intro i0 i
    cases i with
    | zero =>
      show ((buildSectionRecord ch i0 hd, buildKPs ch i0 (hd.knowledge_points.getD []) 1)
          :: buildSections ch tl (i0 + 1))[0]? = _
      simp
    | succ n =>
      show ((buildSectionRecord ch i0 hd, buildKPs ch i0 (hd.knowledge_points.getD []) 1)
          :: buildSections ch tl (i0 + 1))[n + 1]? = _
      rw [List.getElem?_cons_succ, List.getElem?_cons_succ, ih (i0 + 1) n]
      have : i0 + 1 + n = i0 + (n + 1) := by omega
      rw [this]

/-- Claim C6: for the `i`-th (0-based) section record built by the tree
builder, `section_number = "{chapter_number}.{i+1}"`; its `j`-th knowledge
point has `point_id = "{section_number}.{j+1}"`; indices are 1-based in the
stage output's order with no re-sorting, and the orchestrator invokes the
builder with the parent chapter's `chapter_number`. -/
theorem dotted_identifiers (ch : Int) (ss : List SectionInfo) (i j : Nat)
    (sec : SectionRecord) (kps : List KnowledgePointRecord)
    (kp : KnowledgePointRecord)
    (hsec : (buildSections ch ss 1)[i]? = some (sec, kps))
    (hkp : kps[j]? = some kp) :
    sec.section_number = toString ch ++ "." ++ toString (i + 1)
    ∧ kp.point_id = sec.section_number ++ "." ++ toString (j + 1)
    ∧ ∀ (chRec : ChapterRecord) (d : SimpleChapterContentData),
        contentForChapter chRec (.success d)
          = buildSections chRec.chapter_number d.sections 1 := by
  rw [buildSections_getElem, Option.map_eq_some'] at hsec
  obtain ⟨sInfo, hs, heq⟩ := hsec
  have hsec1 : sec = buildSectionRecord ch (1 + i) sInfo :=
    (congrArg Prod.fst heq).symm
  have hkps : kps = buildKPs ch (1 + i) (sInfo.knowledge_points.getD []) 1 :=
    (congrArg Prod.snd heq).symm
  subst hsec1
  subst hkps
  rw [buildKPs_getElem, Option.map_eq_some'] at hkp
  obtain ⟨kpInfo, hkmem, hkeq⟩ := hkp
  subst hkeq
  refine ⟨?_, ?_, fun chRec d => rfl⟩
  · show toString ch ++ "." ++ toString (1 + i) = toString ch ++ "." ++ toString (i + 1)
    rw [Nat.add_comm 1 i]
  · show toString ch ++ "." ++ toString (1 + i) ++ "." ++ toString (1 + j)
        = (toString ch ++ "." ++ toString (1 + i)) ++ "." ++ toString (j + 1)
    rw [Nat.add_comm 1 j]

/-- Witness for `dotted_identifiers` on a one-section, one-point output for
chapter 3. -/
theorem dotted_identifiers_witness :
    ∃ sec kps kp,
      (buildSections 3 demoContent.sections 1)[0]? = some (sec, kps)
      ∧ kps[0]? = some kp
      ∧ sec.section_number = "3.1"
      ∧ kp.point_id = sec.section_number ++ "." ++ toString (0 + 1) := by
  refine ⟨_, _, _, rfl, rfl, ?_, ?_⟩
  · exact ((dotted_identifiers 3 demoContent.sections 0 0 _ _ _ rfl rfl).1).trans
      (by decide)
  · exact (dotted_identifiers 3 demoContent.sections 0 0 _ _ _ rfl rfl).2.1

/-! ## Claim C7, amended part -/

/-- Claim C7 (amended): when the skeleton stage succeeds, the stored
`chapter_number` of the chapter at position `i` is exactly the service-emitted
`chapter_id` when present, with `i + 1` only as the missing-key default — so
uniqueness/consecutiveness holds only if the service emits 1..K in order (or
omits ids), not regardless of what it emitted; when the skeleton stage fails,
the single fallback chapter is numbered 1. -/
theorem chapter_numbering_amended (inp : RunInput) :
    (∀ e, inp.structureResult = .failure e →
      (runGeneration inp).chapters.map (fun p => p.1.chapter_number) = [1])
    ∧ (∀ sd, inp.structureResult = .success sd →
        (runGeneration inp).chapters.length = sd.chapters.length
        ∧ ∀ (i : Nat),
            ((runGeneration inp).chapters[i]?).map (fun p => p.1.chapter_number)
            = (sd.chapters[i]?).map
                (fun info => info.chapter_id.getD (Int.ofNat (i + 1)))) := by
  constructor
  · intro e h
    simp [runGeneration, h, contentPhase, fallbackChapter]
  · intro sd h
    have hcl : runChaptersList inp
        = sd.chapters.enum.map (fun p => (mkChapter inp.courseId p.1 p.2, p.2)) := by
      simp [runChaptersList, h]
    constructor
    · rw [run_chapters_eq, contentPhase_chapters_length, hcl]
      simp [List.length_map, List.enum_length]
    · intro i
      rw [run_chapters_eq, contentPhase_chapters_getElem, hcl,
        List.getElem?_map, List.getElem?_enum]
      cases hsc : sd.chapters[i]? with
      | none => rfl
      | some info => simp [mkChapter]

/-- Witness for `chapter_numbering_amended` on the duplicated-id run. -/
theorem chapter_numbering_amended_witness :
    (runGeneration c7Input).chapters.length = 2
    ∧ ((runGeneration c7Input).chapters[0]?).map (fun p => p.1.chapter_number)
        = some 2 := by
  have h := (chapter_numbering_amended c7Input).2 _ rfl
  exact ⟨(h.1).trans (by decide), (h.2 0).trans (by decide)⟩


/-! ## Claim C5: persistence discipline -/

lemma contentOpsForChapter_shape (ch : ChapterRecord) (o : ContentOutcome) :
    ∀ op ∈ contentOpsForChapter ch o,
      isCommitOp op = false ∧ isAddChapterOp op = false := by
  intro op hop
  cases o with
  | success d =>
    simp only [contentOpsForChapter, List.mem_flatten, List.mem_map] at hop
    obtain ⟨l', ⟨p, hp, rfl⟩, hop⟩ := hop
    simp only [sectionOps, List.mem_cons, List.mem_map] at hop
    rcases hop with rfl | rfl | ⟨k, hk, rfl⟩ <;> exact ⟨rfl, rfl⟩
  | failure e =>
    simp only [contentOpsForChapter, List.mem_singleton] at hop
    subst hop
    exact ⟨rfl, rfl⟩
  | exception m =>
    simp only [contentOpsForChapter, List.mem_singleton] at hop
    subst hop
    exact ⟨rfl, rfl⟩

lemma contentPhase_ops_shape (out : Nat → ContentOutcome) (K : Nat) :
    ∀ (chaps : List (ChapterRecord × ChapterInfo)) (k : Nat),
      ∀ op ∈ (contentPhase out K chaps k).2.1,
        isCommitOp op = false ∧ isAddChapterOp op = false := by
  intro chaps
  induction chaps with
  | nil => intro k op hop; simp [contentPhase] at hop
  | cons hd tl ih =>
    intro k op hop
    obtain ⟨ch, info⟩ := hd
    have : (contentPhase out K ((ch, info) :: tl) k).2.1
        = contentOpsForChapter ch (out k) ++ (contentPhase out K tl (k + 1)).2.1 := rfl
    rw [this, List.mem_append] at hop
    rcases hop with h | h
    · exact contentOpsForChapter_shape ch (out k) op h
    · exact ih (k + 1) op h

lemma skeleton_ops_shape (chs : List (ChapterRecord × ChapterInfo)) :
    ∀ op ∈ (chs.map (fun p => [DbOp.addChapter p.1, DbOp.flush])).flatten,
      isCommitOp op = false ∧ isAddSectionOp op = false := by
  intro op hop
  simp only [List.mem_flatten, List.mem_map] at hop
  obtain ⟨l', ⟨p, hp, rfl⟩, hop⟩ := hop
  simp only [List.mem_cons, List.not_mem_nil, or_false] at hop
  rcases hop with rfl | rfl <;> exact ⟨rfl, rfl⟩

lemma commitThenSection_concat_commit (ys : List DbOp)
    (h : ∀ op ∈ ys, isCommitOp op = false) :
    commitThenSection (ys ++ [.commit]) = false := by
  induction ys with
  | nil => rfl
  | cons y ys ih =>
    show ((isCommitOp y && (ys ++ [DbOp.commit]).any isAddSectionOp)
        || commitThenSection (ys ++ [DbOp.commit])) = false
    rw [h y (List.mem_cons_self y ys), ih (fun op hop => h op (List.mem_cons_of_mem y hop))]
    rfl

lemma sectionCommitSection_concat_commit (ys : List DbOp)
    (h : ∀ op ∈ ys, isCommitOp op = false) :
    sectionCommitSection (ys ++ [.commit]) = false := by
  induction ys with
  | nil => rfl
  | cons y ys ih =>
    show ((isAddSectionOp y && commitThenSection (ys ++ [DbOp.commit]))
        || sectionCommitSection (ys ++ [DbOp.commit])) = false
    rw [commitThenSection_concat_commit ys (fun op hop => h op (List.mem_cons_of_mem y hop)),
      ih (fun op hop => h op (List.mem_cons_of_mem y hop))]
    simp

lemma sectionCommitSection_append (xs zs : List DbOp)
    (hxs : ∀ op ∈ xs, isAddSectionOp op = false)
    (hzs : sectionCommitSection zs = false) :
    sectionCommitSection (xs ++ zs) = false := by
  induction xs with
  | nil => simpa using hzs
  | cons x xs ih =>
    show ((isAddSectionOp x && commitThenSection (xs ++ zs))
        || sectionCommitSection (xs ++ zs)) = false
    rw [hxs x (List.mem_cons_self x xs),
      ih (fun op hop => hxs op (List.mem_cons_of_mem x hop))]
    rfl

lemma sectionThenChapter_no_chapter (zs : List DbOp)
    (h : ∀ op ∈ zs, isAddChapterOp op = false) :
    sectionThenChapter zs = false := by
  induction zs with
  | nil => rfl
  | cons z zs ih =>
    show ((isAddSectionOp z && zs.any isAddChapterOp) || sectionThenChapter zs) = false
    have hany : zs.any isAddChapterOp = false := by
      rw [List.any_eq_false]
      intro op hop
      simp [h op (List.mem_cons_of_mem z hop)]
    rw [hany, ih (fun op hop => h op (List.mem_cons_of_mem z hop))]
    simp

lemma sectionThenChapter_append (xs zs : List DbOp)
    (hxs : ∀ op ∈ xs, isAddSectionOp op = false)
    (hzs : ∀ op ∈ zs, isAddChapterOp op = false) :
    sectionThenChapter (xs ++ zs) = false := by
  induction xs with
  | nil => simpa using sectionThenChapter_no_chapter zs hzs
  | cons x xs ih =>
    show ((isAddSectionOp x && (xs ++ zs).any isAddChapterOp)
        || sectionThenChapter (xs ++ zs)) = false
    rw [hxs x (List.mem_cons_self x xs),
      ih (fun op hop => hxs op (List.mem_cons_of_mem x hop))]
    rfl

/-- The session-op trace of a run, decomposed. -/
lemma run_dbTrace_eq (inp : RunInput) :
    (runGeneration inp).dbTrace
      = (match inp.introResult with
         | .success _ => [DbOp.commit]
         | .failure _ => [])
        ++ ((runChaptersList inp).map
              (fun p => [DbOp.addChapter p.1, DbOp.flush])).flatten
        ++ [DbOp.commit]
        ++ (contentPhase inp.contentResults (runChaptersList inp).length
              (runChaptersList inp) 0).2.1
        ++ [DbOp.commit] := by
  obtain ⟨cid, course, ir, orr, sr, cr⟩ := inp
  cases ir <;> cases sr <;> rfl

/-- Claim C5 (amended): the skeleton rows are added (and batch-committed)
before any section row — never after one — and the course-core commit happens
only when the introduction stage succeeds (there is no commit after the
objectives stage); but each chapter's sections and knowledge points are NOT
committed per chapter: no commit ever separates two `addSection` operations,
and the run's section/knowledge-point work is all committed by the single
final commit (the trace's last operation), together with the `published`
status — so a late failure can lose every chapter's content, not just the
in-flight chapter's. -/
theorem persistence_discipline_amended (inp : RunInput) :
    commitCount (runGeneration inp).dbTrace
      = (match inp.introResult with
         | .success _ => 1
         | .failure _ => 0) + 2
    ∧ sectionCommitSection (runGeneration inp).dbTrace = false
    ∧ sectionThenChapter (runGeneration inp).dbTrace = false
    ∧ (runGeneration inp).dbTrace.getLast? = some .commit := by
  have hskel := skeleton_ops_shape (runChaptersList inp)
  have hcont := contentPhase_ops_shape inp.contentResults
    (runChaptersList inp).length (runChaptersList inp) 0
  refine ⟨?_, ?_, ?_, ?_⟩
  · rw [run_dbTrace_eq]
    have h1 : List.countP isCommitOp (((runChaptersList inp).map
        (fun p => [DbOp.addChapter p.1, DbOp.flush])).flatten) = 0 :=
      List.countP_eq_zero.2 (fun op hop => by simp [(hskel op hop).1])
    have h2 : List.countP isCommitOp ((contentPhase inp.contentResults
        (runChaptersList inp).length (runChaptersList inp) 0).2.1) = 0 :=
      List.countP_eq_zero.2 (fun op hop => by simp [(hcont op hop).1])
    cases hir : inp.introResult <;>
      simp only [commitCount, List.countP_append, h1, h2, List.countP_cons,
        List.countP_nil, isCommitOp] <;>
      norm_num
  · rw [run_dbTrace_eq, List.append_assoc]
    refine sectionCommitSection_append _ _ ?_ ?_
    · intro op hop
      rw [List.mem_append, List.mem_append] at hop
      rcases hop with (hop | hop) | hop
      · cases hir : inp.introResult <;> rw [hir] at hop <;> simp at hop
        subst hop
        rfl
      · exact (hskel op hop).2
      · simp at hop
        subst hop
        rfl
    · exact sectionCommitSection_concat_commit _
        (fun op hop => (hcont op hop).1)
  · rw [run_dbTrace_eq, List.append_assoc]
    refine sectionThenChapter_append _ _ ?_ ?_
    · intro op hop
      rw [List.mem_append, List.mem_append] at hop
      rcases hop with (hop | hop) | hop
      · cases hir : inp.introResult <;> rw [hir] at hop <;> simp at hop
        subst hop
        rfl
      · exact (hskel op hop).2
      · simp at hop
        subst hop
        rfl
    · intro op hop
      rw [List.mem_append] at hop
      rcases hop with hop | hop
      · exact (hcont op hop).2
      · simp at hop
        subst hop
        rfl
  · rw [run_dbTrace_eq]
    exact List.getLast?_concat _

def c5Input : RunInput :=
  { courseId := 3
    course := mkInitialCourse ⟨none, none, none, none, none, none, none, none⟩
    introResult := .success
      ⟨"机器学习", "进阶课程", "工程师", "线性代数", ["掌握"], ["亮点"], "intermediate", "32"⟩
    objectivesResult := .success ⟨["总体"], [], [], []⟩
    structureResult := .success ⟨some 2, some 8,
      [⟨some 1, some "第一章", some "描述", some 4, some "beginner", some ["目标"]⟩,
       ⟨some 2, some "第二章", some "描述", some 3, some "beginner", some ["目标"]⟩]⟩
    contentResults := fun _ => .success demoContent }

/-- Claim C5 counterexample: in a fully successful two-chapter run (one
section per chapter) there is no commit between the two chapters' `addSection`
operations — the whole trace holds exactly 3 commits (introduction, skeleton
batch, final batch) where the claimed per-chapter discipline would need 4. -/
theorem persistence_discipline_counterexample :
    sectionCommitSection (runGeneration c5Input).dbTrace = false
    ∧ (runGeneration c5Input).dbTrace.countP isAddSectionOp = 2
    ∧ commitCount (runGeneration c5Input).dbTrace = 3
    ∧ ¬ 4 ≤ commitCount (runGeneration c5Input).dbTrace := by decide


/-! ## Claim C8: the repair-and-parse layer -/

/-- Claim C8 (amended): there is no single three-step repair layer.  The
chapter-content generator attempts, in order, (1) first-to-last-brace
substring extraction plus schema parse and (2) the `OutputFixingParser`
round-trip — with no deterministic textual repair step — and on failure
returns a record embedding only the first 500 characters of the stripped
response.  The introduction/objectives generator attempts, in order,
(1) a direct whole-text parse (no substring extraction), (2) the
deterministic comma repair plus re-parse, and (3) the fixing round-trip —
and on failure its error is the raised exception's text, not a bounded
preview.  Neither pipeline lets an exception escape: every outcome is a
success or failure record. -/
theorem repair_parse_amended (α : Type) (parse : String → Option α)
    (fix : String → Except String α) (raw : String) :
    (∀ js d, extractJson (pyStrip raw) = some js → parse js = some d →
        chapter_content_parse parse fix raw = .success d)
    ∧ (∀ d, extractJson (pyStrip raw) = none → fix (pyStrip raw) = .ok d →
        chapter_content_parse parse fix raw = .success d)
    ∧ (∀ js d, extractJson (pyStrip raw) = some js → parse js = none →
        fix (pyStrip raw) = .ok d → chapter_content_parse parse fix raw = .success d)
    ∧ (∀ e, extractJson (pyStrip raw) = none → fix (pyStrip raw) = .error e →
        chapter_content_parse parse fix raw
          = .failure ("Failed to parse LLM response: " ++ pyTake (pyStrip raw) 500))
    ∧ (∀ js e, extractJson (pyStrip raw) = some js → parse js = none →
        fix (pyStrip raw) = .error e →
        chapter_content_parse parse fix raw
          = .failure ("Failed to parse LLM response: " ++ pyTake (pyStrip raw) 500))
    ∧ (∀ d, parse raw = some d → intro_parse parse fix raw = .success d)
    ∧ (∀ d, parse raw = none → parse (regexRepair (pyStrip raw)) = some d →
        intro_parse parse fix raw = .success d)
    ∧ (∀ d, parse raw = none → parse (regexRepair (pyStrip raw)) = none →
        fix raw = .ok d → intro_parse parse fix raw = .success d)
    ∧ (∀ e, parse raw = none → parse (regexRepair (pyStrip raw)) = none →
        fix raw = .error e → intro_parse parse fix raw = .failure e) := by
  refine ⟨?_, ?_, ?_, ?_, ?_, ?_, ?_, ?_, ?_⟩
  · intro js d h1 h2
    simp [chapter_content_parse, h1, h2]
  · intro d h1 h2
    simp [chapter_content_parse, h1, h2]
  · intro js d h1 h2 h3
    simp [chapter_content_parse, h1, h2, h3]
  · intro e h1 h2
    simp [chapter_content_parse, h1, h2]
  · intro js e h1 h2 h3
    simp [chapter_content_parse, h1, h2, h3]
  · intro d h1
    simp [intro_parse, h1]
  · intro d h1 h2
    simp [intro_parse, h1, h2]
  · intro d h1 h2 h3
    simp [intro_parse, h1, h2, h3]
  · intro e h1 h2 h3
    simp [intro_parse, h1, h2, h3]

/-- A malformed response with a missing comma after a closing bracket. -/
def c8Raw : String := "\x7b\"a\": [1] \"b\": 2\x7d"

def c8Data : SimpleChapterContentData := ⟨[]⟩

/-- Schema-parse oracle that accepts exactly the comma-repaired text. -/
def c8Parse : String → Option SimpleChapterContentData :=
  fun s => if s = regexRepair c8Raw then some c8Data else none

/-- Fixing round-trip oracle that always raises. -/
def c8Fix : String → Except String SimpleChapterContentData :=
  fun _ => .error "ValidationError"

/-- Claim C8 counterexample: on a response that only the deterministic
comma repair can rescue, the spec's three-step layer succeeds via step (2),
but the cited chapter-content pipeline — which has no textual-repair step —
returns a ParseError, so no single layer attempts the three claimed steps on
every raw text. -/
theorem repair_parse_counterexample :
    spec_repair_and_parse c8Parse c8Fix c8Raw = .success c8Data
    ∧ chapter_content_parse c8Parse c8Fix c8Raw
        = .failure ("Failed to parse LLM response: " ++ c8Raw)
    ∧ chapter_content_parse c8Parse c8Fix c8Raw
        ≠ spec_repair_and_parse c8Parse c8Fix c8Raw := by decide

/-- Witness for `repair_parse_amended`: the bounded-preview failure branch of
the chapter-content pipeline and the repaired-parse success branch of the
introduction pipeline, both at concrete inputs. -/
theorem repair_parse_amended_witness :
    chapter_content_parse c8Parse c8Fix c8Raw
      = .failure ("Failed to parse LLM response: " ++ pyTake (pyStrip c8Raw) 500)
    ∧ intro_parse c8Parse c8Fix (regexRepair c8Raw) = .success c8Data := by
  constructor
  · exact (repair_parse_amended _ c8Parse c8Fix c8Raw).2.2.2.2.1 c8Raw
      "ValidationError" (by decide) (by decide) rfl
  · exact (repair_parse_amended _ c8Parse c8Fix (regexRepair c8Raw)).2.2.2.2.2.1
      c8Data (by decide)

/-! ## Claim C10: the objectives stage's output is never persisted -/

/-- Claim C10: the `Course` model has no `objectives` column, and the
orchestrator's objectives branch only assigns the parsed objectives to the
unmapped Python attribute `course.objectives` — so the persisted course row,
the session-op trace and the stored chapter tree of a run are completely
independent of the objectives stage's result, and the generated objectives
survive only as the transient attribute. -/
theorem objectives_never_persisted (inp : RunInput)
    (r : StageResult ObjectivesData) :
    "objectives" ∉ courseColumns
    ∧ (runGeneration { inp with objectivesResult := r }).course
        = (runGeneration inp).course
    ∧ (runGeneration { inp with objectivesResult := r }).dbTrace
        = (runGeneration inp).dbTrace
    ∧ (runGeneration { inp with objectivesResult := r }).chapters
        = (runGeneration inp).chapters
    ∧ (∀ d, inp.objectivesResult = .success d →
        (runGeneration inp).objectivesAttr = some d) := by
  refine ⟨by decide, rfl, rfl, rfl, ?_⟩
  intro d h
  simp [runGeneration, h]

/-- Witness for `objectives_never_persisted` on a successful objectives
stage. -/
theorem objectives_never_persisted_witness :
    (runGeneration c2Input).objectivesAttr = some ⟨["总体"], [], [], []⟩ :=
  (objectives_never_persisted c2Input (.failure "x")).2.2.2.2 _ rfl


/-! ## Concrete instantiations of the run-level theorems -/

/-- Witness for `progress_events_amended` at a concrete fully successful
run. -/
theorem progress_events_amended_witness :
    completionCount (runGeneration c2Input).events = 1
    ∧ ∀ p ∈ eventPercents (runGeneration c2Input).events, p ≤ 95 :=
  ⟨(progress_events_amended c2Input).2.1, (progress_events_amended c2Input).2.2⟩

/-- Witness for `persistence_discipline_amended` at a concrete two-chapter
run. -/
theorem persistence_discipline_amended_witness :
    commitCount (runGeneration c5Input).dbTrace = 3
    ∧ sectionCommitSection (runGeneration c5Input).dbTrace = false :=
  ⟨((persistence_discipline_amended c5Input).1).trans (by decide),
   (persistence_discipline_amended c5Input).2.1⟩

/-- Witness for `status_lifecycle_amended` at a concrete configuration and
run. -/
theorem status_lifecycle_amended_witness :
    (mkInitialCourse c9Config).status = "published"
    ∧ (runGeneration c1Input).course.status = "published"
    ∧ (markRunFailed (mkInitialCourse c9Config)).status = "failed" :=
  ⟨(status_lifecycle_amended c9Config c1Input (mkInitialCourse c9Config)).2.1,
   (status_lifecycle_amended c9Config c1Input (mkInitialCourse c9Config)).2.2.1,
   (status_lifecycle_amended c9Config c1Input (mkInitialCourse c9Config)).2.2.2⟩

end CKP
